import Mathlib

/-!
Verification of the node-group provisioning engine of the `pulumi-eks` repository
(`nodejs/eks/nodegroup.ts`) against its natural-language specification.

The TypeScript source is shallowly embedded: option bags become structures of
`Option`-typed fields, JavaScript truthiness is made explicit, deferred values
(`pulumi.Output`) are treated as already resolved, and each provisioning
function becomes a pure function that returns the ordered list of cloud
resources it declares together with either a configuration error (the thrown
`Error` message) or its result record.
-/

deriving instance DecidableEq for Except

namespace NodeGroup

/-- JavaScript truthiness of a `string | undefined` value: `undefined` and the
empty string are falsy, every other string is truthy. -/
def jsStrTruthy : Option String → Bool
  | none => false
  | some s => s ≠ ""

/-- JavaScript `a || b` for `a : string | undefined` and a string default `b`. -/
def jsOrStr (a : Option String) (b : String) : String :=
  if jsStrTruthy a then a.getD "" else b

/-- Splitting of a character list at every character satisfying `p`, keeping
empty fragments, one fragment more than there are separator occurrences —
the semantics of JavaScript's `String.prototype.split` with a single-character
separator (and, with a whitespace class, of splitting on whitespace). -/
def splitCharsBy (p : Char → Bool) : List Char → List (List Char)
  | [] => [[]]
  | c :: rest =>
    match splitCharsBy p rest with
    | [] => [[]]
    | l :: ls => if p c then [] :: l :: ls else (c :: l) :: ls

/-- JavaScript's `s.split(" ")`: fragments between single space characters,
empty fragments kept. -/
def jsSplitSpace (s : String) : List String :=
  (splitCharsBy (fun c => c == ' ') s.data).map (fun l => String.mk l)

/-- Kubernetes taint: `value` plus one of the three scheduling effects
(`NoSchedule`, `NoExecute`, `PreferNoSchedule`), kept as a string exactly as the
source's `Taint` interface stores it. -/
structure Taint where
  value : String
  effect : String
deriving DecidableEq, Repr

/-! ## Bootstrap payload generation (nodegroup.ts lines 634-660 and 940-966)

The two self-managed provisioners contain the same token-building and joining
code verbatim; it is embedded once and used by both.  Label and taint mappings
are embedded as association lists whose order is the object's key iteration
order. -/

/-- The kubelet token list, from the source:
`const kubeletExtraArgs = args.kubeletExtraArgs ? args.kubeletExtraArgs.split(" ") : [];`
followed by pushing a `--node-labels=` token (if `args.labels` is defined and
yields at least one `key=value` part) and a `--register-with-taints=` token (if
`args.taints` is defined and yields at least one `key=value:effect` part).
JavaScript's `split(" ")` splits on each single space character, keeping empty
fragments, which `jsSplitSpace` reproduces exactly. -/
def kubeletArgsTokens (kubeletExtraArgs : Option String)
    (labels : Option (List (String × String)))
    (taints : Option (List (String × Taint))) : List String :=
  let base : List String :=
    match kubeletExtraArgs with
    | some s => if s = "" then [] else jsSplitSpace s
    | none => []
  let withLabels : List String :=
    match labels with
    | some ls =>
      let parts := ls.map (fun kv => kv.1 ++ "=" ++ kv.2)
      if parts.length > 0 then base ++ ["--node-labels=" ++ String.intercalate "," parts]
      else base
    | none => base
  match taints with
  | some ts =>
    let parts := ts.map (fun kv => kv.1 ++ "=" ++ kv.2.value ++ ":" ++ kv.2.effect)
    if parts.length > 0 then
      withLabels ++ ["--register-with-taints=" ++ String.intercalate "," parts]
    else withLabels
  | none => withLabels

/-- The `bootstrapExtraArgs` string, from the source:
`let bootstrapExtraArgs = args.bootstrapExtraArgs ? (" " + args.bootstrapExtraArgs) : "";`
then append `--kubelet-extra-args tok` for exactly one token and
`--kubelet-extra-args 'tok1 tok2 ...'` for two or more. -/
def bootstrapExtraArgsString (bootstrapExtraArgs : Option String)
    (toks : List String) : String :=
  let base : String :=
    match bootstrapExtraArgs with
    | some s => if s = "" then "" else " " ++ s
    | none => ""
  match toks with
  | [] => base
  | [t] => base ++ " --kubelet-extra-args " ++ t
  | ts => base ++ " --kubelet-extra-args '" ++ String.intercalate " " ts ++ "'"

/-! ### The claim-side description of the same computation

Claim C1 describes the token list as the explicit kubelet-extra-args string
split *on whitespace*, followed by an optional labels token and an optional
taints token, with the zero/one/many join rule.  The following definitions
follow the claim's words so they can be compared with the source embedding. -/

/-- Whitespace character class: space, tab, newline, carriage return. -/
def isWsChar (c : Char) : Bool := c == ' ' || c == '\t' || c == '\n' || c == '\r'

/-- Whitespace splitting as the claim words it: the maximal non-whitespace
fragments of the string (empty fragments dropped). -/
def claimSplitWhitespace (s : String) : List String :=
  ((splitCharsBy isWsChar s.data).map (fun l => String.mk l)).filter (fun t => t ≠ "")

/-- Single-space splitting, the amended claim's wording: the fragments between
single space characters, empty fragments kept; the empty or absent string
yields no tokens. -/
def claimSplitSpace (s : Option String) : List String :=
  match s with
  | none => []
  | some s => if s = "" then [] else jsSplitSpace s

/-- The labels token as the claim describes it: present iff the label mapping
is non-empty, joining `k=v` pairs with commas in iteration order. -/
def claimLabelsToken (labels : Option (List (String × String))) : List String :=
  match labels with
  | none => []
  | some ls =>
    if ls = [] then []
    else ["--node-labels=" ++ String.intercalate "," (ls.map (fun kv => kv.1 ++ "=" ++ kv.2))]

/-- The taints token as the claim describes it: present iff the taint mapping
is non-empty, joining `k=v:Effect` entries with commas in iteration order. -/
def claimTaintsToken (taints : Option (List (String × Taint))) : List String :=
  match taints with
  | none => []
  | some ts =>
    if ts = [] then []
    else ["--register-with-taints=" ++
      String.intercalate "," (ts.map (fun kv => kv.1 ++ "=" ++ kv.2.value ++ ":" ++ kv.2.effect))]

/-- The token list exactly as claim C1 states it (whitespace splitting). -/
def claimTokensWhitespace (kubeletExtraArgs : Option String)
    (labels : Option (List (String × String)))
    (taints : Option (List (String × Taint))) : List String :=
  (match kubeletExtraArgs with
   | none => []
   | some s => claimSplitWhitespace s) ++ claimLabelsToken labels ++ claimTaintsToken taints

/-- The token list as the amended claim states it (single-space splitting). -/
def claimTokensSpace (kubeletExtraArgs : Option String)
    (labels : Option (List (String × String)))
    (taints : Option (List (String × Taint))) : List String :=
  claimSplitSpace kubeletExtraArgs ++ claimLabelsToken labels ++ claimTaintsToken taints

/-- The claim's prefix coming from explicit extra bootstrap args: a single
space plus the explicit string when one is present. -/
def claimBootstrapBase (bootstrapExtraArgs : Option String) : String :=
  match bootstrapExtraArgs with
  | some s => if s = "" then "" else " " ++ s
  | none => ""

/-- The claim's join rule for the kubelet flag: omitted for zero tokens,
unquoted for one, single-quoted space-joined for two or more. -/
def claimKubeletFlag (toks : List String) : String :=
  match toks with
  | [] => ""
  | [t] => " --kubelet-extra-args " ++ t
  | ts => " --kubelet-extra-args '" ++ String.intercalate " " ts ++ "'"

/-! ## Subnet classification (nodegroup.ts lines 1142-1205)

IPv4 addresses are 32-bit numbers (`Nat` below 2^32).  A CIDR block is its
base address plus a mask length.  The `netmask` library computes
`netLong = base & maskLong` and `broadcast = netLong + size - 1`; masking the
top `bits` bits of an address is division by the block size, which this
embedding uses instead of bitwise operations. -/

/-- An IPv4 address from its four dotted components. -/
def ipv4 (a b c d : Nat) : Nat := ((a * 256 + b) * 256 + c) * 256 + d

/-- A CIDR block: base address (32-bit number) and mask length. -/
structure Cidr where
  addr : Nat
  bits : Nat
deriving DecidableEq, Repr

/-- Number of addresses in the block: 2^(32 - bits). -/
def Cidr.size (c : Cidr) : Nat := 2 ^ (32 - c.bits)

/-- The network address of the block (the base with host bits cleared),
the netmask library's `netLong = base & maskLong`. -/
def Cidr.netLong (c : Cidr) : Nat := c.addr / c.size * c.size

/-- The last address of the block, the netmask library's broadcast
(or `last` for /31 and /32 blocks). -/
def Cidr.lastLong (c : Cidr) : Nat := c.netLong + c.size - 1

/-- Membership of a single address in a block, the netmask library's
`(ip2long(ip) & this.maskLong) === this.netLong`: the top `bits` bits agree. -/
def Cidr.containsIp (c : Cidr) (ip : Nat) : Bool := ip / c.size == c.addr / c.size

/-- The netmask library's `contains` applied to a CIDR string: the argument
block's first and last addresses are both inside this block. -/
def Cidr.containsCidr (c other : Cidr) : Bool :=
  c.containsIp other.netLong && c.containsIp other.lastLong

/-- The reserved private range 10.0.0.0/8. -/
def privateA : Cidr := ⟨ipv4 10 0 0 0, 8⟩

/-- The reserved private range 172.16.0.0/12. -/
def privateB : Cidr := ⟨ipv4 172 16 0 0, 12⟩

/-- The reserved private range 192.168.0.0/16. -/
def privateC : Cidr := ⟨ipv4 192 168 0 0, 16⟩

/-- The source's `isPrivateCIDRBlock`: the block falls within one of the three
reserved private ranges (netmask `contains` on each). -/
def isPrivateCIDRBlock (c : Cidr) : Bool :=
  privateA.containsCidr c || privateB.containsCidr c || privateC.containsCidr c

/-- One route of a route table: the gateway id when the route targets a
gateway (`undefined` otherwise) and the destination CIDR block. -/
structure Route where
  gatewayId : Option String
  cidrBlock : Cidr
deriving DecidableEq, Repr

/-- A candidate subnet: its id and its effective route table (the explicitly
associated table, or the VPC main table resolved by `getRouteTableAsync`). -/
structure SubnetInfo where
  id : String
  routes : List Route
deriving DecidableEq, Repr

/-- The source's public test for one subnet:
`routeTable.routes.find(r => !!r.gatewayId && !isPrivateCIDRBlock(r.cidrBlock)) !== undefined`. -/
def subnetIsPublic (s : SubnetInfo) : Bool :=
  s.routes.any (fun r => jsStrTruthy r.gatewayId && !isPrivateCIDRBlock r.cidrBlock)

/-- The loop body of `computeWorkerSubnets`: walk the candidates in order,
appending each id to the public or the private accumulator. -/
def computeWorkerSubnetsLoop : List SubnetInfo → List String → List String →
    List String × List String
  | [], pub, priv => (pub, priv)
  | s :: rest, pub, priv =>
    if subnetIsPublic s then computeWorkerSubnetsLoop rest (pub ++ [s.id]) priv
    else computeWorkerSubnetsLoop rest pub (priv ++ [s.id])

/-- The source's `computeWorkerSubnets`: partition the candidates, then
`return privateSubnets.length === 0 ? publicSubnets : privateSubnets`. -/
def computeWorkerSubnets (subnets : List SubnetInfo) : List String :=
  let r := computeWorkerSubnetsLoop subnets [] []
  if r.2.length = 0 then r.1 else r.2

/-- The claim's reading of a destination CIDR lying inside a reserved range:
every address of the block belongs to the range. -/
def cidrInside (range c : Cidr) : Prop :=
  ∀ ip : Nat, c.netLong ≤ ip → ip ≤ c.lastLong → range.containsIp ip = true

/-! ## Root-volume IOPS / throughput validation (lines 701-721 and 1009-1029)

The source builds `const numeric = new RegExp("^\d+$")`.  In a JavaScript
string literal the escape `\d` denotes the plain letter `d`, so the compiled
pattern is `^d+$`: it accepts exactly the non-empty strings consisting solely
of the letter `d`.  IOPS and throughput are JavaScript numbers; they are
embedded as rationals (JavaScript floats are a subset), and the only use the
program makes of such a number besides truthiness is `numeric.test(x.toString())`,
so the rendering below only needs to agree with JavaScript's on the alphabet:
like every JavaScript rendering of a number, it always contains a decimal
digit and is therefore never a string of `d`s. -/

/-- The miswritten integrality test: `new RegExp("^\d+$").test(s)` where the
pattern compiles to `^d+$`. -/
def numericTest (s : String) : Bool :=
  s.length != 0 && s.data.all (fun c => c == 'd')

/-- Decimal digit character for a value below ten. -/
def digitChar (n : Nat) : Char := Char.ofNat (48 + n)

/-- The decimal digits of a natural number, most significant first, with an
explicit fuel argument so the recursion is structural.  The fuel `n + 1` of
`natDecChars` always suffices since the value shrinks by a factor of ten per
step. -/
def natDecCharsAux : Nat → Nat → List Char
  | 0, _ => []
  | fuel + 1, n =>
    if n < 10 then [digitChar n]
    else natDecCharsAux fuel (n / 10) ++ [digitChar (n % 10)]

/-- The decimal digits of a natural number, most significant first. -/
def natDecChars (n : Nat) : List Char := natDecCharsAux (n + 1) n

/-- Decimal rendering of a number for the regular-expression test: sign,
integer digits, and (for non-integers) the denominator after a dot.  It agrees
with JavaScript's `Number.prototype.toString` on nonnegative integers, and for
every other value both renderings contain a decimal digit, which is all
`numericTest` can observe. -/
def jsNumRepr (q : ℚ) : String :=
  ⟨(if q < 0 then ['-'] else []) ++ natDecChars q.num.natAbs ++
    (if q.den = 1 then [] else '.' :: natDecChars q.den)⟩

/-- JavaScript truthiness of a `number | undefined` value: `undefined` and
zero are falsy. -/
def jsNumTruthy : Option ℚ → Bool
  | none => false
  | some q => q ≠ 0

/-- Rendering of an optional number via optional chaining,
`x?.toString()` (only reached when the number is present). -/
def jsNumReprOpt : Option ℚ → String
  | none => "undefined"
  | some q => jsNumRepr q

/-- The four root-volume checks, in source order: IOPS on a non-io1 volume;
io1 with IOPS failing the integrality regular expression; throughput on a
non-gp3 volume; gp3 with throughput failing the regular expression.  Returns
the first thrown error message, if any. -/
def rootVolumeError (volType : Option String) (iops throughput : Option ℚ) :
    Option String :=
  if jsNumTruthy iops && volType != some "io1" then
    some "Cannot create a cluster node root volume of non-io1 type with provisioned IOPS (nodeRootVolumeIops)."
  else if volType == some "io1" && jsNumTruthy iops &&
      !numericTest (jsNumReprOpt iops) then
    some "Cannot create a cluster node root volume of io1 type without provisioned IOPS (nodeRootVolumeIops) as integer value."
  else if jsNumTruthy throughput && volType != some "gp3" then
    some "Cannot create a cluster node root volume of non-gp3 type with provisioned throughput (nodeRootVolumeThroughput)."
  else if volType == some "gp3" && jsNumTruthy throughput &&
      !numericTest (jsNumReprOpt throughput) then
    some "Cannot create a cluster node root volume of gp3 type without provisioned throughput (nodeRootVolumeThroughput) as integer value."
  else none

/-! ## AMI family resolution (lines 684-691 and 992-999)

The source computes
`const amiType = args.amiType ?? args.gpu ? "amazon-linux-2-gpu" : "amazon-linux-2";`.
In JavaScript `??` binds tighter than the conditional operator, so this parses
as `(args.amiType ?? args.gpu) ? "amazon-linux-2-gpu" : "amazon-linux-2"`: the
value of an explicit `amiType` is only used for its truthiness, and any
non-empty explicit family selects the GPU image path. -/

/-- The AMI family string interpolated into the parameter-store lookup path,
embedding the parenthesization the source actually has. -/
def resolvedAmiFamily (amiType : Option String) (gpu : Option Bool) : String :=
  let cond : Bool :=
    match amiType with
    | some s => s ≠ ""
    | none => gpu.getD false
  if cond then "amazon-linux-2-gpu" else "amazon-linux-2"

/-- The parameter-store path
`/aws/service/eks/optimized-ami/VERSION/FAMILY/recommended/image_id`. -/
def amiLookupPath (version family : String) : String :=
  "/aws/service/eks/optimized-ami/" ++ version ++ "/" ++ family ++ "/recommended/image_id"

/-! ## Capacity defaults (lines 759-772, 1094-1098 and 1448-1459) -/

/-- Resolved autoscaling capacity bounds. -/
structure Capacity where
  desiredCapacity : Int
  minSize : Int
  maxSize : Int
deriving DecidableEq, Repr

/-- The legacy provisioner's defaults, back-filled onto the options:
desired 2, min 1, max 2 when unset. -/
def resolvedCapacityLegacy (desired min max : Option Int) : Capacity :=
  ⟨desired.getD 2, min.getD 1, max.getD 2⟩

/-- The launch-template provisioner's defaults, applied with `??` at the
autoscaling-group resource: min 1, max 2, desired 2 when unset. -/
def resolvedCapacityV2 (desired min max : Option Int) : Capacity :=
  ⟨desired.getD 2, min.getD 1, max.getD 2⟩

/-- The managed provisioner's scaling-config defaults: desired 2, min 1,
max 2 when the corresponding field is unset. -/
def managedScalingConfig (desired min max : Option Int) : Capacity :=
  ⟨desired.getD 2, min.getD 1, max.getD 2⟩

/-- Rolling-update `MinInstancesInService` of the legacy stack template:
1, set to 0 when a spot price is requested. -/
def minInstancesInService (spotPrice : Option String) : Nat :=
  if jsStrTruthy spotPrice then 0 else 1

/-! ## Managed node group role validation (lines 1374-1415)

A supplied `nodeRole` resource is embedded by its ARN; object truthiness is
`isSome`, string truthiness is non-emptiness. -/

/-- Error when neither a role nor a role ARN is supplied. -/
def errNoRole : String :=
  "An IAM role, or role ARN must be provided to create a managed node group"

/-- Error when both a role and a role ARN are supplied. -/
def errBothRoles : String :=
  "nodeRole and nodeRoleArn are mutually exclusive to create a managed node group"

/-- Error of the unreachable fallback branch of the role resolution. -/
def errRoleUndefined : String := "The managed node group role provided is undefined"

/-- Error when the resolved ARN is not among the cluster's instance roles. -/
def errRoleNotInCluster : String :=
  "A managed node group cannot be created without first setting its role in the cluster's instanceRoles"

/-- The managed provisioner's role checks, in source order: fail when neither
option is truthy, fail when both are; resolve the ARN (explicit ARN wins);
then `instanceRoleArns.find(a => a === arn)` followed by `if (!role) throw`,
which also rejects a found but empty ARN (string falsiness). -/
def managedNodeGroupRole (nodeRoleArn : Option String) (nodeRoleArnOfRole : Option String)
    (instanceRoleArns : List String) : Except String String :=
  if !nodeRoleArnOfRole.isSome && !jsStrTruthy nodeRoleArn then .error errNoRole
  else if nodeRoleArnOfRole.isSome && jsStrTruthy nodeRoleArn then .error errBothRoles
  else
    let resolved : Except String String :=
      if jsStrTruthy nodeRoleArn then .ok (nodeRoleArn.getD "")
      else if nodeRoleArnOfRole.isSome then .ok (nodeRoleArnOfRole.getD "")
      else .error errRoleUndefined
    match resolved with
    | .error e => .error e
    | .ok arn =>
      match instanceRoleArns.find? (fun a => a == arn) with
      | none => .error errRoleNotInCluster
      | some found => if found == "" then .error errRoleNotInCluster else .ok arn

/-! ## Option and cluster records

Only the fields the embedded logic reads are modelled.  Deferred resource
properties (`pulumi.Output`) are taken as already resolved, and resources are
identified by their id strings. -/

/-- The node-group options (`NodeGroupOptions` / `NodeGroupV2Options` minus the
cluster handle).  Numbers are rationals, resources are id strings. -/
structure NodeGroupArgs where
  nodeSubnetIds : Option (List String) := none
  spotPrice : Option String := none
  nodeSecurityGroup : Option String := none
  clusterIngressRule : Option String := none
  nodePublicKey : Option String := none
  keyName : Option String := none
  nodeRootVolumeIops : Option ℚ := none
  nodeRootVolumeThroughput : Option ℚ := none
  nodeRootVolumeType : Option String := none
  nodeUserData : Option String := none
  nodeUserDataOverride : Option String := none
  desiredCapacity : Option Int := none
  minSize : Option Int := none
  maxSize : Option Int := none
  amiType : Option String := none
  amiId : Option String := none
  gpu : Option Bool := none
  labels : Option (List (String × String)) := none
  taints : Option (List (String × Taint)) := none
  kubeletExtraArgs : Option String := none
  bootstrapExtraArgs : Option String := none
  version : Option String := none
  instanceProfile : Option String := none
  minRefreshPercentage : Option Int := none

/-- The resolved cluster core consumed by the provisioners.  The cluster's
subnet ids are carried together with their effective route tables so that the
classifier's lookups are explicit; `nodeSecurityGroupId` and
`coreInstanceProfile` model `c.nodeGroupOptions`. -/
structure CoreData where
  clusterName : String := ""
  clusterEndpoint : String := ""
  clusterCaData : String := ""
  clusterVersion : String := ""
  coreInstanceProfile : Option String := none
  nodeSecurityGroupId : Option String := none
  nodeSecurityGroupTags : Option (List (String × String)) := none
  subnets : List SubnetInfo := []
  privateSubnetIds : Option (List String) := none
  publicSubnetIds : Option (List String) := none
  instanceRoleArns : List String := []

/-- External inputs resolved during provisioning: the region, the
random-suffixed stack name, and the image id returned by the parameter-store
lookup for a given parameter path. -/
structure Env where
  region : String := ""
  cfnStackName : String := ""
  ssmAmiId : String → String := fun _ => ""

/-- The cloud resources a provisioning call declares, in declaration order
(the kinds claim C9 enumerates; data-source lookups and the random-suffix
helper are not resource declarations of those kinds). -/
inductive ResourceEv where
  | createSecurityGroup
  | createKeyPair
  | createLaunchConfiguration
  | createCfnStack
  | createLaunchTemplate
  | createAutoScalingGroup
deriving DecidableEq, Repr

/-- Error of the missing instance profile check. -/
def errInstanceProfile : String := "an instanceProfile is required"

/-- Error of the node-security-group / cluster-tags mutual exclusion. -/
def errSgTags : String :=
  "The NodeGroup's nodeSecurityGroup and the cluster option nodeSecurityGroupTags are mutually exclusive. Choose a single approach"

/-- Error of the public-key / key-name mutual exclusion. -/
def errKeyPair : String :=
  "nodePublicKey and keyName are mutually exclusive. Choose a single approach"

/-- Error of the ami-id / gpu mutual exclusion. -/
def errAmiGpu : String := "amiId and gpu are mutually exclusive."

/-- Error of the user-data-override mutual exclusion. -/
def errOverride : String :=
  "nodeUserDataOverride and any combination of \x7bnodeUserData, labels, taints, kubeletExtraArgs, or bootstrapExtraArgs\x7d is mutually exclusive."

/-- Error when a worker security group is supplied without its ingress rule. -/
def errIngressRule (name : String) : String :=
  "invalid args for node group " ++ name ++ ", clusterIngressRule is required when nodeSecurityGroup is manually specified"

/-- The heredoc staging of custom user data (applied only when non-empty). -/
def wrapCustomUserData (stackName customUserData : String) : String :=
  if customUserData == "" then customUserData
  else "cat >/opt/user-data <<" ++ stackName ++ "-user-data\n" ++ customUserData ++
    "\n" ++ stackName ++ "-user-data\nchmod +x /opt/user-data\n/opt/user-data\n"

/-- The legacy bootstrap script: shebang, bootstrap invocation with the
computed extra args, staged custom user data, and the cfn-signal call. -/
def legacyUserDataScript (region clusterName endpoint caData stackName customUserData
    bea : String) : String :=
  "#!/bin/bash\n\n/etc/eks/bootstrap.sh --apiserver-endpoint \"" ++ endpoint ++
    "\" --b64-cluster-ca \"" ++ caData ++ "\" \"" ++ clusterName ++ "\"" ++ bea ++
    "\n" ++ wrapCustomUserData stackName customUserData ++
    "\n/opt/aws/bin/cfn-signal --exit-code $? --stack " ++ stackName ++
    " --resource NodeGroup --region " ++ region ++ "\n"

/-- The launch-template bootstrap script: same composition without the
cfn-signal call. -/
def v2UserDataScript (clusterName endpoint caData stackName customUserData
    bea : String) : String :=
  "#!/bin/bash\n\n/etc/eks/bootstrap.sh --apiserver-endpoint \"" ++ endpoint ++
    "\" --b64-cluster-ca \"" ++ caData ++ "\" \"" ++ clusterName ++ "\"" ++ bea ++
    "\n" ++ wrapCustomUserData stackName customUserData ++ "\n"

/-- The legacy launch configuration's user data:
`args.nodeUserDataOverride || userdata`. -/
def legacyChosenUserData (override : Option String) (script : String) : String :=
  if jsStrTruthy override then override.getD "" else script

/-- The launch-template user data before encoding: the override when it is
defined and non-empty (`!== undefined && !== ""`), else the generated script. -/
def v2ChosenUserData (override : Option String) (script : String) : String :=
  if override.isSome && override != some "" then override.getD "" else script

/-- The base64 alphabet. -/
def base64Table : List Char :=
  "ABCDEFGHIJKLMNOPQRSTUVWXYZabcdefghijklmnopqrstuvwxyz0123456789+/".data

/-- The base64 character of a 6-bit value. -/
def b64Char (n : Nat) : Char := base64Table.getD n 'A'

/-- Standard base64 of a byte list, three bytes at a time with padding. -/
def base64Chunks : List Nat → List Char
  | [] => []
  | [a] => [b64Char (a / 4), b64Char (a % 4 * 16), '=', '=']
  | [a, b] => [b64Char (a / 4), b64Char (a % 4 * 16 + b / 16), b64Char (b % 16 * 4), '=']
  | a :: b :: c :: rest =>
    b64Char (a / 4) :: b64Char (a % 4 * 16 + b / 16) :: b64Char (b % 16 * 4 + c / 64) ::
      b64Char (c % 64) :: base64Chunks rest

/-- UTF-8 encoding of a code point as byte values. -/
def utf8EncodeCharNat (n : Nat) : List Nat :=
  if n < 128 then [n]
  else if n < 2048 then [192 + n / 64, 128 + n % 64]
  else if n < 65536 then [224 + n / 4096, 128 + n / 64 % 64, 128 + n % 64]
  else [240 + n / 262144, 128 + n / 4096 % 64, 128 + n / 64 % 64, 128 + n % 64]

/-- The UTF-8 bytes of a string. -/
def utf8Bytes (s : String) : List Nat :=
  (s.data.map (fun c => utf8EncodeCharNat c.toNat)).flatten

/-- Base64 of the UTF-8 bytes of a string
(`Buffer.from(x, "utf-8").toString("base64")`). -/
def base64Encode (s : String) : String :=
  ⟨base64Chunks (utf8Bytes s)⟩

/-! ## Worker subnet resolution (lines 742-757 and 1073-1088) -/

/-- The legacy provisioner's worker-subnet resolution: the explicit override,
else the cluster's private set, else its public set, else the computed
classification of the cluster's full subnet set. -/
def resolveWorkerSubnetsLegacy (nodeSubnetIds : Option (List String))
    (core : CoreData) : List String :=
  match nodeSubnetIds with
  | some ids => ids
  | none =>
    match core.privateSubnetIds with
    | some p => p
    | none =>
      match core.publicSubnetIds with
      | some p => p
      | none => computeWorkerSubnets core.subnets

/-- The launch-template provisioner's worker-subnet resolution, identical
logic at its own source site. -/
def resolveWorkerSubnetsV2 (nodeSubnetIds : Option (List String))
    (core : CoreData) : List String :=
  match nodeSubnetIds with
  | some ids => ids
  | none =>
    match core.privateSubnetIds with
    | some p => p
    | none =>
      match core.publicSubnetIds with
      | some p => p
      | none => computeWorkerSubnets core.subnets

/-! ## The legacy provisioner (createNodeGroupInternal, lines 540-837) -/

/-- Result of a successful legacy provisioning call: the fields the claims
observe out of the launch configuration and the stack. -/
structure LegacyResult where
  nodeSecurityGroupId : String
  amiParameterName : Option String
  amiId : String
  userData : String
  workerSubnetIds : List String
  capacity : Capacity
  minInService : Nat
deriving DecidableEq, Repr

/-- The tail of the legacy provisioner after the security-group step: the
optional key pair, the bootstrap composition, the AMI resolution, the
root-volume checks, the launch configuration, the worker subnets, the capacity
defaults, and the stack. -/
def legacyAfterSecurityGroup (_name : String) (env : Env) (args : NodeGroupArgs)
    (core : CoreData) (evs0 : List ResourceEv) (sgId : String) :
    List ResourceEv × Except String LegacyResult :=
  let evs := if jsStrTruthy args.nodePublicKey then evs0 ++ [ResourceEv.createKeyPair] else evs0
  let toks := kubeletArgsTokens args.kubeletExtraArgs args.labels args.taints
  let bea := bootstrapExtraArgsString args.bootstrapExtraArgs toks
  let version := jsOrStr args.version core.clusterVersion
  let family := resolvedAmiFamily args.amiType args.gpu
  let amiParam : Option String :=
    if jsStrTruthy args.amiId then none else some (amiLookupPath version family)
  let ami : String :=
    if jsStrTruthy args.amiId then args.amiId.getD ""
    else env.ssmAmiId (amiLookupPath version family)
  match rootVolumeError args.nodeRootVolumeType args.nodeRootVolumeIops
      args.nodeRootVolumeThroughput with
  | some e => (evs, .error e)
  | none =>
    let script := legacyUserDataScript env.region core.clusterName core.clusterEndpoint
      core.clusterCaData env.cfnStackName ((args.nodeUserData).getD "") bea
    (evs ++ [ResourceEv.createLaunchConfiguration, ResourceEv.createCfnStack],
     .ok { nodeSecurityGroupId := sgId
           amiParameterName := amiParam
           amiId := ami
           userData := legacyChosenUserData args.nodeUserDataOverride script
           workerSubnetIds := resolveWorkerSubnetsLegacy args.nodeSubnetIds core
           capacity := resolvedCapacityLegacy args.desiredCapacity args.minSize args.maxSize
           minInService := minInstancesInService args.spotPrice })

/-- The legacy provisioner: the five validation checks in source order, the
security-group resolution (created when not supplied; the supplied one
requires the ingress rule), then the remaining steps. -/
def createNodeGroupInternalModel (name : String) (env : Env) (args : NodeGroupArgs)
    (core : CoreData) : List ResourceEv × Except String LegacyResult :=
  if args.instanceProfile.isNone && core.coreInstanceProfile.isNone then
    ([], .error errInstanceProfile)
  else if core.nodeSecurityGroupId.isSome && args.nodeSecurityGroup.isSome &&
      core.nodeSecurityGroupTags.isSome && core.nodeSecurityGroupId != args.nodeSecurityGroup then
    ([], .error errSgTags)
  else if jsStrTruthy args.nodePublicKey && jsStrTruthy args.keyName then
    ([], .error errKeyPair)
  else if jsStrTruthy args.amiId && args.gpu.getD false then
    ([], .error errAmiGpu)
  else if jsStrTruthy args.nodeUserDataOverride &&
      (jsStrTruthy args.nodeUserData || args.labels.isSome || args.taints.isSome ||
        jsStrTruthy args.kubeletExtraArgs || jsStrTruthy args.bootstrapExtraArgs) then
    ([], .error errOverride)
  else
    match args.nodeSecurityGroup with
    | some sgId =>
      if args.clusterIngressRule.isNone then ([], .error (errIngressRule name))
      else legacyAfterSecurityGroup name env args core [] sgId
    | none =>
      legacyAfterSecurityGroup name env args core [ResourceEv.createSecurityGroup]
        (name ++ "-nodeSecurityGroup")

/-! ## The launch-template provisioner (createNodeGroupV2Internal, lines 850-1118) -/

/-- Result of a successful launch-template provisioning call. -/
structure V2Result where
  nodeSecurityGroupId : String
  amiParameterName : Option String
  amiId : String
  userDataBase64 : String
  workerSubnetIds : List String
  capacity : Capacity
  minRefreshPercentage : Int
deriving DecidableEq, Repr

/-- The tail of the launch-template provisioner after the security-group step.
The stack name interpolated into the heredoc staging is the node-group name
itself, the user data is base64-encoded, and the autoscaling group carries the
instance-refresh policy with `minRefreshPercentage ?? 50`. -/
def v2AfterSecurityGroup (name : String) (env : Env) (args : NodeGroupArgs)
    (core : CoreData) (evs0 : List ResourceEv) (sgId : String) :
    List ResourceEv × Except String V2Result :=
  let evs := if jsStrTruthy args.nodePublicKey then evs0 ++ [ResourceEv.createKeyPair] else evs0
  let toks := kubeletArgsTokens args.kubeletExtraArgs args.labels args.taints
  let bea := bootstrapExtraArgsString args.bootstrapExtraArgs toks
  let version := jsOrStr args.version core.clusterVersion
  let family := resolvedAmiFamily args.amiType args.gpu
  let amiParam : Option String :=
    if jsStrTruthy args.amiId then none else some (amiLookupPath version family)
  let ami : String :=
    if jsStrTruthy args.amiId then args.amiId.getD ""
    else env.ssmAmiId (amiLookupPath version family)
  match rootVolumeError args.nodeRootVolumeType args.nodeRootVolumeIops
      args.nodeRootVolumeThroughput with
  | some e => (evs, .error e)
  | none =>
    let script := v2UserDataScript core.clusterName core.clusterEndpoint
      core.clusterCaData name ((args.nodeUserData).getD "") bea
    (evs ++ [ResourceEv.createLaunchTemplate, ResourceEv.createAutoScalingGroup],
     .ok { nodeSecurityGroupId := sgId
           amiParameterName := amiParam
           amiId := ami
           userDataBase64 := base64Encode (v2ChosenUserData args.nodeUserDataOverride script)
           workerSubnetIds := resolveWorkerSubnetsV2 args.nodeSubnetIds core
           capacity := resolvedCapacityV2 args.desiredCapacity args.minSize args.maxSize
           minRefreshPercentage := (args.minRefreshPercentage).getD 50 })

/-- The launch-template provisioner: the same five validation checks and
security-group resolution, then the remaining steps. -/
def createNodeGroupV2InternalModel (name : String) (env : Env) (args : NodeGroupArgs)
    (core : CoreData) : List ResourceEv × Except String V2Result :=
  if args.instanceProfile.isNone && core.coreInstanceProfile.isNone then
    ([], .error errInstanceProfile)
  else if core.nodeSecurityGroupId.isSome && args.nodeSecurityGroup.isSome &&
      core.nodeSecurityGroupTags.isSome && core.nodeSecurityGroupId != args.nodeSecurityGroup then
    ([], .error errSgTags)
  else if jsStrTruthy args.nodePublicKey && jsStrTruthy args.keyName then
    ([], .error errKeyPair)
  else if jsStrTruthy args.amiId && args.gpu.getD false then
    ([], .error errAmiGpu)
  else if jsStrTruthy args.nodeUserDataOverride &&
      (jsStrTruthy args.nodeUserData || args.labels.isSome || args.taints.isSome ||
        jsStrTruthy args.kubeletExtraArgs || jsStrTruthy args.bootstrapExtraArgs) then
    ([], .error errOverride)
  else
    match args.nodeSecurityGroup with
    | some sgId =>
      if args.clusterIngressRule.isNone then ([], .error (errIngressRule name))
      else v2AfterSecurityGroup name env args core [] sgId
    | none =>
      v2AfterSecurityGroup name env args core [ResourceEv.createSecurityGroup]
        (name ++ "-nodeSecurityGroup")

end NodeGroup

/-!
# Theorems

Helper lemmas first, then one theorem per claim (with its witness or
counterexample where required).
-/

namespace NodeGroup

/-- The join rule of the final kubelet flag, for any token list: the code's
joining equals the claim's base-plus-flag description. -/
theorem bootstrap_join_rule (bea : Option String) (toks : List String) :
    bootstrapExtraArgsString bea toks =
      claimBootstrapBase bea ++ claimKubeletFlag toks := by
  rcases toks with _ | ⟨t, _ | ⟨u, rest⟩⟩ <;>
    cases bea <;>
      simp [bootstrapExtraArgsString, claimBootstrapBase, claimKubeletFlag,
        String.append_assoc]

/-- The code's token list equals the claim-side token list built with
single-space splitting. -/
theorem kubeletArgsTokens_eq_claimTokensSpace (kea : Option String)
    (labels : Option (List (String × String)))
    (taints : Option (List (String × Taint))) :
    kubeletArgsTokens kea labels taints = claimTokensSpace kea labels taints := by
  rcases labels with _ | ⟨_ | ⟨l, ls⟩⟩ <;>
    rcases taints with _ | ⟨_ | ⟨t, ts⟩⟩ <;>
      simp [kubeletArgsTokens, claimTokensSpace, claimSplitSpace,
        claimLabelsToken, claimTaintsToken, List.append_assoc] <;>
    cases kea <;> rfl

/-- C1, counterexample to the claim as stated: the code splits the explicit
kubelet-extra-args on single space characters, not on whitespace.  For the
input string containing a tab the code produces a single token passed unquoted,
while the claim's whitespace splitting produces two tokens and predicts the
single-quoted joined form; the resulting flag strings differ. -/
theorem c1_whitespace_counterexample :
    bootstrapExtraArgsString none (kubeletArgsTokens (some "a\tb") none none) ≠
      claimBootstrapBase none ++
        claimKubeletFlag (claimTokensWhitespace (some "a\tb") none none) := by decide

/-- C1 (amended): the bootstrap payload generator builds the kubelet token
list by splitting the explicit kubeletExtraArgs string on single space
characters (empty string or absent giving no tokens, empty fragments kept),
then appends a node-labels token exactly when the label mapping is non-empty
(in iteration order) and a register-with-taints token exactly when the taint
mapping is non-empty; the kubelet flag is omitted for zero tokens, passed
unquoted for exactly one, and passed as one single-quoted space-joined
argument for two or more, appended after the explicit bootstrap extra args. -/
theorem c1_kubelet_args_composition (kea bea : Option String)
    (labels : Option (List (String × String)))
    (taints : Option (List (String × Taint))) :
    kubeletArgsTokens kea labels taints = claimTokensSpace kea labels taints ∧
    bootstrapExtraArgsString bea (kubeletArgsTokens kea labels taints) =
      claimBootstrapBase bea ++ claimKubeletFlag (claimTokensSpace kea labels taints) := by
  have h := kubeletArgsTokens_eq_claimTokensSpace kea labels taints
  exact ⟨h, by rw [bootstrap_join_rule, h]⟩

/-- The classifier loop accumulates the public and private ids in order. -/
theorem computeWorkerSubnetsLoop_spec (subnets : List SubnetInfo)
    (pub priv : List String) :
    computeWorkerSubnetsLoop subnets pub priv =
      (pub ++ (subnets.filter (fun s => subnetIsPublic s)).map SubnetInfo.id,
       priv ++ (subnets.filter (fun s => !subnetIsPublic s)).map SubnetInfo.id) := by
  induction subnets generalizing pub priv with
  | nil => simp [computeWorkerSubnetsLoop]
  | cons s rest ih =>
    by_cases h : subnetIsPublic s = true <;>
      simp [computeWorkerSubnetsLoop, h, ih, List.filter_cons]

/-- A block's membership test is monotone over the interval it induces:
if two addresses lie in a block, so does everything between them. -/
theorem containsIp_of_between (R : Cidr) (x y z : Nat) (hxy : x ≤ y) (hyz : y ≤ z)
    (hx : R.containsIp x = true) (hz : R.containsIp z = true) :
    R.containsIp y = true := by
  unfold Cidr.containsIp at hx hz ⊢
  have h1 : x / R.size ≤ y / R.size := Nat.div_le_div_right hxy
  have h2 : y / R.size ≤ z / R.size := Nat.div_le_div_right hyz
  simp only [beq_iff_eq] at hx hz ⊢
  omega

/-- The first address of a block is at most its last address. -/
theorem netLong_le_lastLong (c : Cidr) : c.netLong ≤ c.lastLong := by
  have h : 0 < c.size := Nat.pos_pow_of_pos _ (by omega)
  unfold Cidr.lastLong
  omega

/-- The netmask library's containment of one block in another is exactly the
claim's reading: every address of the inner block lies in the outer one. -/
theorem containsCidr_iff_inside (R c : Cidr) :
    R.containsCidr c = true ↔ cidrInside R c := by
  constructor
  · intro h ip h1 h2
    rw [Cidr.containsCidr, Bool.and_eq_true] at h
    exact containsIp_of_between R c.netLong ip c.lastLong h1 h2 h.1 h.2
  · intro h
    rw [Cidr.containsCidr, Bool.and_eq_true]
    exact ⟨h c.netLong le_rfl (netLong_le_lastLong c),
           h c.lastLong (netLong_le_lastLong c) le_rfl⟩

/-- The private-range test is exactly full containment in one of the three
reserved ranges. -/
theorem isPrivateCIDRBlock_iff (c : Cidr) :
    isPrivateCIDRBlock c = true ↔
      (cidrInside privateA c ∨ cidrInside privateB c ∨ cidrInside privateC c) := by
  rw [isPrivateCIDRBlock]
  simp [Bool.or_eq_true, containsCidr_iff_inside, or_assoc]

/-- The subnet classification predicate matches the claim's description. -/
theorem subnetIsPublic_iff (s : SubnetInfo) :
    subnetIsPublic s = true ↔
      ∃ r ∈ s.routes, jsStrTruthy r.gatewayId = true ∧
        ¬(cidrInside privateA r.cidrBlock ∨ cidrInside privateB r.cidrBlock ∨
          cidrInside privateC r.cidrBlock) := by
  rw [subnetIsPublic, List.any_eq_true]
  refine exists_congr (fun r => and_congr_right (fun _ => ?_))
  rw [Bool.and_eq_true, Bool.not_eq_true']
  refine and_congr_right (fun _ => ?_)
  rw [← isPrivateCIDRBlock_iff]
  simp

/-- C2: computeWorkerSubnets classifies a subnet as public iff its effective
route table has a route with a (truthy) gateway target whose destination CIDR
is not inside 10.0.0.0/8, 172.16.0.0/12 or 192.168.0.0/16; it returns exactly
the private subset when at least one candidate is private, and the full input
set when every candidate is public. -/
theorem c2_computeWorkerSubnets_classification (subnets : List SubnetInfo) :
    (∀ s ∈ subnets, (subnetIsPublic s = true ↔
      ∃ r ∈ s.routes, jsStrTruthy r.gatewayId = true ∧
        ¬(cidrInside privateA r.cidrBlock ∨ cidrInside privateB r.cidrBlock ∨
          cidrInside privateC r.cidrBlock))) ∧
    ((∃ s ∈ subnets, subnetIsPublic s = false) →
      computeWorkerSubnets subnets =
        (subnets.filter (fun s => !subnetIsPublic s)).map SubnetInfo.id) ∧
    ((∀ s ∈ subnets, subnetIsPublic s = true) →
      computeWorkerSubnets subnets = subnets.map SubnetInfo.id) := by
  refine ⟨fun s _ => subnetIsPublic_iff s, ?_, ?_⟩
  · rintro ⟨s, hs, hpriv⟩
    rw [computeWorkerSubnets, computeWorkerSubnetsLoop_spec]
    have hmem : s ∈ subnets.filter (fun s => !subnetIsPublic s) := by
      rw [List.mem_filter]
      exact ⟨hs, by simp [hpriv]⟩
    have hne : (subnets.filter (fun s => !subnetIsPublic s)).map SubnetInfo.id ≠ [] := by
      simp only [ne_eq, List.map_eq_nil_iff, List.filter_eq_nil_iff]
      intro h
      exact absurd (by simp [hpriv]) (h s hs)
    simp only [List.nil_append]
    rw [if_neg (by simpa using List.length_pos.mpr hne |>.ne')]
  · intro hall
    rw [computeWorkerSubnets, computeWorkerSubnetsLoop_spec]
    have hfilter : subnets.filter (fun s => !subnetIsPublic s) = [] := by
      rw [List.filter_eq_nil_iff]
      intro s hs
      simp [hall s hs]
    have hfilter2 : subnets.filter (fun s => subnetIsPublic s) = subnets := by
      rw [List.filter_eq_self]
      exact hall
    simp [hfilter, hfilter2]

/-- C2 witness: a concrete mixed candidate set.  The first subnet has an
internet-gateway route to 0.0.0.0/0 (public), the second only a gateway route
to the VPC-local private 10.0.0.0/16 (private), the third no routes (private);
the classifier returns exactly the two private ids. -/
theorem c2_computeWorkerSubnets_witness :
    computeWorkerSubnets
      [⟨"subnet-pub", [⟨some "igw-1", ⟨0, 0⟩⟩]⟩,
       ⟨"subnet-priv1", [⟨some "local", ⟨ipv4 10 0 0 0, 16⟩⟩]⟩,
       ⟨"subnet-priv2", []⟩] = ["subnet-priv1", "subnet-priv2"] := by
  have h := (c2_computeWorkerSubnets_classification
      [⟨"subnet-pub", [⟨some "igw-1", ⟨0, 0⟩⟩]⟩,
       ⟨"subnet-priv1", [⟨some "local", ⟨ipv4 10 0 0 0, 16⟩⟩]⟩,
       ⟨"subnet-priv2", []⟩]).2.1 (by decide)
  exact h.trans (by decide)

/-- A decimal digit character is never the letter d. -/
theorem digitChar_ne_d (m : Nat) (h : m < 10) : digitChar m ≠ 'd' := by
  interval_cases m <;> decide

/-- Every character the digit renderer produces is a decimal digit, hence not
the letter d. -/
theorem natDecCharsAux_ne_d (fuel : Nat) :
    ∀ n c, c ∈ natDecCharsAux fuel n → c ≠ 'd' := by
  induction fuel with
  | zero => intro n c hc; simp [natDecCharsAux] at hc
  | succ fuel ih =>
    intro n c hc
    rw [natDecCharsAux] at hc
    split at hc
    · simp only [List.mem_singleton] at hc
      subst hc
      exact digitChar_ne_d n (by assumption)
    · rw [List.mem_append] at hc
      rcases hc with h | h
      · exact ih _ _ h
      · simp only [List.mem_singleton] at h
        subst h
        exact digitChar_ne_d _ (Nat.mod_lt _ (by omega))

/-- The digit renderer never returns the empty list. -/
theorem natDecChars_ne_nil (n : Nat) : natDecChars n ≠ [] := by
  rw [natDecChars, natDecCharsAux]
  split <;> simp

/-- The miswritten regular expression rejects the rendering of every number:
the pattern compiled from the string literal accepts only strings of the
letter d, and every rendering contains a decimal digit. -/
theorem numericTest_jsNumRepr (q : ℚ) : numericTest (jsNumRepr q) = false := by
  rcases hL : natDecChars q.num.natAbs with _ | ⟨c, cs⟩
  · exact absurd hL (natDecChars_ne_nil _)
  · have hc : c ≠ 'd' := by
      apply natDecCharsAux_ne_d (q.num.natAbs + 1) q.num.natAbs
      rw [← natDecChars, hL]
      exact List.mem_cons_self _ _
    have hall : ((if q < 0 then ['-'] else []) ++ natDecChars q.num.natAbs ++
        (if q.den = 1 then [] else '.' :: natDecChars q.den)).all
          (fun x => x == 'd') = false := by
      rw [List.all_eq_false]
      refine ⟨c, ?_, by simp [hc]⟩
      rw [hL]
      simp [List.mem_append]
    show ((jsNumRepr q).length != 0 &&
      ((if q < 0 then ['-'] else []) ++ natDecChars q.num.natAbs ++
        (if q.den = 1 then [] else '.' :: natDecChars q.den)).all
          (fun x => x == 'd')) = false
    rw [hall, Bool.and_false]

/-- C3, counterexample to the claim as stated: selecting io1 without
provisioned IOPS raises no error (there is no such check in the code), and
likewise gp3 without provisioned throughput; an IOPS value of zero is falsy
and also bypasses the non-io1 conflict check. -/
theorem c3_claim_counterexample :
    rootVolumeError (some "io1") none none = none ∧
    rootVolumeError (some "gp3") none none = none ∧
    rootVolumeError (some "gp2") (some 0) none = none := by decide

/-- C3 (amended): self-managed provisioning fails whenever a nonzero IOPS
value is set with a root volume type other than io1, and whenever a nonzero
IOPS value is set on an io1 volume — integral or not, because the integrality
pattern written as a string literal compiles to one matching only strings of
the letter d and so rejects every numeric rendering; symmetrically for
throughput and gp3; no check fires when io1 (or gp3) is selected without the
corresponding value. -/
theorem c3_root_volume_validation (volType : Option String) (iops thr : Option ℚ) :
    (jsNumTruthy iops = true → volType ≠ some "io1" →
      (rootVolumeError volType iops thr).isSome = true) ∧
    (volType = some "io1" → jsNumTruthy iops = true →
      rootVolumeError volType iops thr =
        some "Cannot create a cluster node root volume of io1 type without provisioned IOPS (nodeRootVolumeIops) as integer value.") ∧
    (jsNumTruthy thr = true → volType ≠ some "gp3" →
      (rootVolumeError volType iops thr).isSome = true) ∧
    (volType = some "gp3" → jsNumTruthy thr = true →
      (rootVolumeError volType iops thr).isSome = true) ∧
    (volType = some "io1" → iops = none → thr = none →
      rootVolumeError volType iops thr = none) := by
  refine ⟨?_, ?_, ?_, ?_, ?_⟩
  · intro h1 h2
    rw [rootVolumeError, if_pos (by simp [h1, bne_iff_ne, h2])]
    rfl
  · intro hv h1
    subst hv
    rcases iops with _ | q
    · simp [jsNumTruthy] at h1
    · rw [rootVolumeError, if_neg (by simp), if_pos (by
        simp [h1, jsNumReprOpt, numericTest_jsNumRepr])]
  · intro h1 h2
    rw [rootVolumeError]
    by_cases hc1 : (jsNumTruthy iops && volType != some "io1") = true
    · rw [if_pos hc1]; rfl
    · rw [if_neg hc1]
      by_cases hc2 : (volType == some "io1" && jsNumTruthy iops &&
          !numericTest (jsNumReprOpt iops)) = true
      · rw [if_pos hc2]; rfl
      · rw [if_neg hc2, if_pos (by simp [h1, bne_iff_ne, h2])]; rfl
  · intro hv h2
    subst hv
    by_cases hio : jsNumTruthy iops = true
    · rw [rootVolumeError, if_pos (by simp [hio, bne_iff_ne])]; rfl
    · rcases thr with _ | q
      · simp [jsNumTruthy] at h2
      · rw [rootVolumeError, if_neg (by simp [hio]), if_neg (by simp),
          if_neg (by simp), if_pos (by
            simp [h2, jsNumReprOpt, numericTest_jsNumRepr])]
        rfl
  · intro hv h1 h2
    subst hv; subst h1; subst h2
    decide

/-- C3 witness: concrete evaluations through the amended theorem — IOPS 100 on
gp2 conflicts; IOPS 100 on io1 hits the miswritten integrality check;
throughput 125 on gp2 conflicts and on gp3 hits its integrality check; io1
with nothing set passes. -/
theorem c3_root_volume_validation_witness :
    (rootVolumeError (some "gp2") (some 100) none).isSome = true ∧
    rootVolumeError (some "io1") (some 100) none =
      some "Cannot create a cluster node root volume of io1 type without provisioned IOPS (nodeRootVolumeIops) as integer value." ∧
    (rootVolumeError (some "gp2") none (some 125)).isSome = true ∧
    (rootVolumeError (some "gp3") none (some 125)).isSome = true ∧
    rootVolumeError (some "io1") none none = none :=
  ⟨(c3_root_volume_validation (some "gp2") (some 100) none).1 (by decide) (by decide),
   (c3_root_volume_validation (some "io1") (some 100) none).2.1 rfl (by decide),
   (c3_root_volume_validation (some "gp2") none (some 125)).2.2.1 (by decide) (by decide),
   (c3_root_volume_validation (some "gp3") none (some 125)).2.2.2.1 rfl (by decide),
   (c3_root_volume_validation (some "io1") none none).2.2.2.2 rfl rfl rfl⟩

/-- C4: evaluation of the AMI family resolution at the failing inputs.  Due to
the precedence of the nullish-coalescing operator, an explicit AMI family is
used only for its truthiness, so any non-empty explicit family — here the
arm64 one, with the GPU flag absent or false — selects the GPU-optimized
lookup path, contradicting the claim that an explicit family is used as given
and that the GPU variant requires the gpu flag; the end-to-end lookup path of
the provisioner shows the same.  (Explicit `amiId` does bypass the lookup, and
with no explicit family the gpu flag alone selects the variant.) -/
theorem c4_ami_family_bug_eval :
    resolvedAmiFamily (some "amazon-linux-2-arm64") none = "amazon-linux-2-gpu" ∧
    resolvedAmiFamily (some "amazon-linux-2-arm64") (some false) = "amazon-linux-2-gpu" ∧
    resolvedAmiFamily none (some true) = "amazon-linux-2-gpu" ∧
    resolvedAmiFamily none none = "amazon-linux-2" ∧
    ((createNodeGroupInternalModel "ng" {}
        { instanceProfile := some "profile", amiType := some "amazon-linux-2-arm64" }
        { clusterVersion := "1.21" }).2.map (fun r => r.amiParameterName)) =
      .ok (some "/aws/service/eks/optimized-ami/1.21/amazon-linux-2-gpu/recommended/image_id") ∧
    ((createNodeGroupInternalModel "ng" {}
        { instanceProfile := some "profile", amiId := some "ami-12345" }
        { clusterVersion := "1.21" }).2.map (fun r => r.amiParameterName)) = .ok none := by
  refine ⟨rfl, rfl, rfl, rfl, by decide, by decide⟩

/-- C5: when the full user-data override is truthy together with any of custom
user-data, labels, taints, extra kubelet args or extra bootstrap args, both
self-managed provisioners stop with a configuration error having declared no
resource at all — in particular before any bootstrap payload could be used. -/
theorem c5_override_exclusion (name : String) (env : Env) (args : NodeGroupArgs)
    (core : CoreData)
    (hov : jsStrTruthy args.nodeUserDataOverride = true)
    (hother : jsStrTruthy args.nodeUserData = true ∨ args.labels.isSome = true ∨
      args.taints.isSome = true ∨ jsStrTruthy args.kubeletExtraArgs = true ∨
      jsStrTruthy args.bootstrapExtraArgs = true) :
    ((createNodeGroupInternalModel name env args core).1 = [] ∧
      ∃ e, (createNodeGroupInternalModel name env args core).2 = .error e) ∧
    ((createNodeGroupV2InternalModel name env args core).1 = [] ∧
      ∃ e, (createNodeGroupV2InternalModel name env args core).2 = .error e) := by
  have hcond : (jsStrTruthy args.nodeUserDataOverride &&
      (jsStrTruthy args.nodeUserData || args.labels.isSome || args.taints.isSome ||
        jsStrTruthy args.kubeletExtraArgs || jsStrTruthy args.bootstrapExtraArgs)) = true := by
    rw [Bool.and_eq_true]
    refine ⟨hov, ?_⟩
    rcases hother with h | h | h | h | h <;> simp [h]
  constructor
  · rw [createNodeGroupInternalModel]
    split_ifs
    all_goals exact ⟨rfl, _, rfl⟩
  · rw [createNodeGroupV2InternalModel]
    split_ifs
    all_goals exact ⟨rfl, _, rfl⟩

/-- C5 witness: override plus labels at concrete options — both provisioners
return a configuration error with an empty resource trace. -/
theorem c5_override_exclusion_witness :
    ((createNodeGroupInternalModel "ng" {}
        { instanceProfile := some "profile", nodeUserDataOverride := some "#!/bin/bash",
          labels := some [("team", "dev")] } {}).1 = [] ∧
      ∃ e, (createNodeGroupInternalModel "ng" {}
        { instanceProfile := some "profile", nodeUserDataOverride := some "#!/bin/bash",
          labels := some [("team", "dev")] } {}).2 = .error e) ∧
    ((createNodeGroupV2InternalModel "ng" {}
        { instanceProfile := some "profile", nodeUserDataOverride := some "#!/bin/bash",
          labels := some [("team", "dev")] } {}).1 = [] ∧
      ∃ e, (createNodeGroupV2InternalModel "ng" {}
        { instanceProfile := some "profile", nodeUserDataOverride := some "#!/bin/bash",
          labels := some [("team", "dev")] } {}).2 = .error e) :=
  c5_override_exclusion "ng" {}
    { instanceProfile := some "profile", nodeUserDataOverride := some "#!/bin/bash",
      labels := some [("team", "dev")] } {} (by decide) (by decide)

/-- C6: with desiredCapacity, minSize and maxSize all unset, both self-managed
provisioners resolve capacity to desired 2, min 1, max 2, and the legacy
rolling-update minimum-instances-in-service is 0 exactly when a spot price is
truthy and 1 otherwise; the end-to-end evaluation reproduces the spec scenario
with spot price 0.05. -/
theorem c6_capacity_defaults (spot : Option String) :
    resolvedCapacityLegacy none none none = ⟨2, 1, 2⟩ ∧
    resolvedCapacityV2 none none none = ⟨2, 1, 2⟩ ∧
    minInstancesInService spot = (if jsStrTruthy spot then 0 else 1) ∧
    ((createNodeGroupInternalModel "ng" {}
        { instanceProfile := some "profile", spotPrice := some "0.05" } {}).2.map
      (fun r => (r.capacity, r.minInService))) = .ok (⟨2, 1, 2⟩, 0) ∧
    ((createNodeGroupV2InternalModel "ng" {}
        { instanceProfile := some "profile", spotPrice := some "0.05" } {}).2.map
      (fun r => r.capacity)) = .ok ⟨2, 1, 2⟩ := by
  refine ⟨rfl, rfl, rfl, by decide, by decide⟩

/-- C7: managed node group creation fails when neither a role nor a role ARN
is supplied, fails when both are supplied, and — when exactly one is supplied —
fails with the distinct instance-roles error whenever the resolved ARN is not
among the cluster's registered instance role ARNs. -/
theorem c7_managed_role_validation (nodeRoleArn roleArn : Option String)
    (arns : List String) :
    (jsStrTruthy nodeRoleArn = false → roleArn = none →
      managedNodeGroupRole nodeRoleArn roleArn arns = .error errNoRole) ∧
    (jsStrTruthy nodeRoleArn = true → roleArn.isSome = true →
      managedNodeGroupRole nodeRoleArn roleArn arns = .error errBothRoles) ∧
    (∀ a, nodeRoleArn = some a → a ≠ "" → roleArn = none → a ∉ arns →
      managedNodeGroupRole nodeRoleArn roleArn arns = .error errRoleNotInCluster) ∧
    (∀ r, roleArn = some r → jsStrTruthy nodeRoleArn = false → r ∉ arns →
      managedNodeGroupRole nodeRoleArn roleArn arns = .error errRoleNotInCluster) ∧
    (errRoleNotInCluster ≠ errNoRole ∧ errRoleNotInCluster ≠ errBothRoles) := by
  refine ⟨?_, ?_, ?_, ?_, by decide⟩
  · intro h1 h2
    subst h2
    rw [managedNodeGroupRole, if_pos (by simp [h1])]
  · intro h1 h2
    rcases roleArn with _ | r
    · simp at h2
    · rw [managedNodeGroupRole, if_neg (by simp [h1]), if_pos (by simp [h1])]
  · intro a ha hne hro hmem
    subst ha; subst hro
    have htr : jsStrTruthy (some a) = true := by simp [jsStrTruthy, hne]
    have hf : arns.find? (fun x => x == a) = none := by
      rw [List.find?_eq_none]
      intro x hx
      simp only [beq_iff_eq]
      rintro rfl
      exact hmem hx
    rw [managedNodeGroupRole, if_neg (by simp [htr]), if_neg (by simp), if_pos htr]
    simp only [Option.getD_some]
    rw [hf]
  · intro r hr h1 hmem
    subst hr
    have hf : arns.find? (fun x => x == r) = none := by
      rw [List.find?_eq_none]
      intro x hx
      simp only [beq_iff_eq]
      rintro rfl
      exact hmem hx
    rw [managedNodeGroupRole, if_neg (by simp [h1]), if_neg (by simp [h1])]
    rw [if_neg (by simp [h1]), if_pos (by simp)]
    simp only [Option.getD_some]
    rw [hf]

/-- C7 witness: concrete evaluations through the theorem — no role source, two
role sources, and a well-formed ARN absent from the cluster's instance roles. -/
theorem c7_managed_role_validation_witness :
    managedNodeGroupRole none none ["arn:aws:iam::1:role/r"] = .error errNoRole ∧
    managedNodeGroupRole (some "arn:aws:iam::1:role/a") (some "arn:aws:iam::1:role/b")
      ["arn:aws:iam::1:role/r"] = .error errBothRoles ∧
    managedNodeGroupRole (some "arn:aws:iam::1:role/a") none
      ["arn:aws:iam::1:role/r"] = .error errRoleNotInCluster ∧
    managedNodeGroupRole none (some "arn:aws:iam::1:role/b")
      ["arn:aws:iam::1:role/r"] = .error errRoleNotInCluster :=
  ⟨(c7_managed_role_validation none none _).1 (by decide) rfl,
   (c7_managed_role_validation _ _ _).2.1 (by decide) (by decide),
   (c7_managed_role_validation _ _ _).2.2.1 "arn:aws:iam::1:role/a" rfl (by decide) rfl
     (by decide),
   (c7_managed_role_validation _ _ _).2.2.2.1 "arn:aws:iam::1:role/b" rfl (by decide)
     (by decide)⟩

/-- C8: both self-managed provisioners resolve the worker subnets by the fixed
priority order — explicit per-node-group override, then the cluster's private
subnet set, then its public subnet set, and the computed classification of the
cluster's full subnet set only when all three are undefined. -/
theorem c8_worker_subnet_priority (core : CoreData) (ids p q : List String) :
    resolveWorkerSubnetsLegacy (some ids) core = ids ∧
    resolveWorkerSubnetsLegacy none { core with privateSubnetIds := some p } = p ∧
    resolveWorkerSubnetsLegacy none
      { core with privateSubnetIds := none, publicSubnetIds := some q } = q ∧
    resolveWorkerSubnetsLegacy none
      { core with privateSubnetIds := none, publicSubnetIds := none } =
      computeWorkerSubnets core.subnets ∧
    resolveWorkerSubnetsV2 (some ids) core = ids ∧
    resolveWorkerSubnetsV2 none { core with privateSubnetIds := some p } = p ∧
    resolveWorkerSubnetsV2 none
      { core with privateSubnetIds := none, publicSubnetIds := some q } = q ∧
    resolveWorkerSubnetsV2 none
      { core with privateSubnetIds := none, publicSubnetIds := none } =
      computeWorkerSubnets core.subnets :=
  ⟨rfl, rfl, rfl, rfl, rfl, rfl, rfl, rfl⟩

/-- Helper: when the legacy tail fails (only the root-volume checks can fail
there), the trace contains exactly the accumulated security-group events plus
at most the key pair — no launch configuration and no stack. -/
theorem legacyAfterSecurityGroup_error_trace (name : String) (env : Env)
    (args : NodeGroupArgs) (core : CoreData) (evs0 : List ResourceEv) (sgId : String)
    (e : String)
    (h : (legacyAfterSecurityGroup name env args core evs0 sgId).2 = .error e) :
    (legacyAfterSecurityGroup name env args core evs0 sgId).1 =
      (if jsStrTruthy args.nodePublicKey then evs0 ++ [ResourceEv.createKeyPair]
       else evs0) := by
  simp only [legacyAfterSecurityGroup] at h ⊢
  rcases hr : rootVolumeError args.nodeRootVolumeType args.nodeRootVolumeIops
      args.nodeRootVolumeThroughput with _ | e'
  · rw [hr] at h
    exact Except.noConfusion h
  · rfl

/-- Helper: same for the launch-template tail — no launch template and no
autoscaling group on failure. -/
theorem v2AfterSecurityGroup_error_trace (name : String) (env : Env)
    (args : NodeGroupArgs) (core : CoreData) (evs0 : List ResourceEv) (sgId : String)
    (e : String)
    (h : (v2AfterSecurityGroup name env args core evs0 sgId).2 = .error e) :
    (v2AfterSecurityGroup name env args core evs0 sgId).1 =
      (if jsStrTruthy args.nodePublicKey then evs0 ++ [ResourceEv.createKeyPair]
       else evs0) := by
  simp only [v2AfterSecurityGroup] at h ⊢
  rcases hr : rootVolumeError args.nodeRootVolumeType args.nodeRootVolumeIops
      args.nodeRootVolumeThroughput with _ | e'
  · rw [hr] at h
    exact Except.noConfusion h
  · rfl

/-- C9 counterexample: an option set that fails the root-volume validation
(IOPS on a gp2 volume) with an SSH public key supplied — the node security
group and the key pair are declared before the validation error is raised, so
resource creation is not all preceded by validation. -/
theorem c9_creation_before_validation_counterexample :
    createNodeGroupInternalModel "ng" {}
      { instanceProfile := some "profile", nodePublicKey := some "ssh-rsa AAAA",
        nodeRootVolumeIops := some 100 } {} =
      ([ResourceEv.createSecurityGroup, ResourceEv.createKeyPair],
       .error "Cannot create a cluster node root volume of non-io1 type with provisioned IOPS (nodeRootVolumeIops).") := by
  decide

/-- C9 (amended): whenever a provisioning call fails (all failures in the
model come from the validation checks), neither the launch
configuration/launch template nor the stack/autoscaling group has been
declared; the mutual-exclusion checks run before any resource, but the
root-volume checks run after the node security group and optional key pair
may already have been declared. -/
theorem c9_validation_before_creation (name : String) (env : Env)
    (args : NodeGroupArgs) (core : CoreData) :
    (∀ e, (createNodeGroupInternalModel name env args core).2 = .error e →
      ResourceEv.createLaunchConfiguration ∉
        (createNodeGroupInternalModel name env args core).1 ∧
      ResourceEv.createCfnStack ∉ (createNodeGroupInternalModel name env args core).1) ∧
    (∀ e, (createNodeGroupV2InternalModel name env args core).2 = .error e →
      ResourceEv.createLaunchTemplate ∉
        (createNodeGroupV2InternalModel name env args core).1 ∧
      ResourceEv.createAutoScalingGroup ∉
        (createNodeGroupV2InternalModel name env args core).1) := by
  constructor
  · intro e h
    rw [createNodeGroupInternalModel] at h ⊢
    split_ifs at h ⊢ <;> try exact ⟨by simp, by simp⟩
    all_goals rcases hsg : args.nodeSecurityGroup with _ | sgId
    case pos.none =>
      rw [hsg] at h
      have ht := legacyAfterSecurityGroup_error_trace name env args core
        [ResourceEv.createSecurityGroup] (name ++ "-nodeSecurityGroup") e h
      refine ⟨?_, ?_⟩ <;>
        · show _ ∉ (legacyAfterSecurityGroup name env args core
            [ResourceEv.createSecurityGroup] (name ++ "-nodeSecurityGroup")).1
          rw [ht]
          cases jsStrTruthy args.nodePublicKey <;> simp
    case pos.some =>
      exact ⟨by simp, by simp⟩
    case neg.none =>
      rw [hsg] at h
      have ht := legacyAfterSecurityGroup_error_trace name env args core
        [ResourceEv.createSecurityGroup] (name ++ "-nodeSecurityGroup") e h
      refine ⟨?_, ?_⟩ <;>
        · show _ ∉ (legacyAfterSecurityGroup name env args core
            [ResourceEv.createSecurityGroup] (name ++ "-nodeSecurityGroup")).1
          rw [ht]
          cases jsStrTruthy args.nodePublicKey <;> simp
    case neg.some =>
      rw [hsg] at h
      have ht := legacyAfterSecurityGroup_error_trace name env args core [] sgId e h
      refine ⟨?_, ?_⟩ <;>
        · show _ ∉ (legacyAfterSecurityGroup name env args core [] sgId).1
          rw [ht]
          cases jsStrTruthy args.nodePublicKey <;> simp
  · intro e h
    rw [createNodeGroupV2InternalModel] at h ⊢
    split_ifs at h ⊢ <;> try exact ⟨by simp, by simp⟩
    all_goals rcases hsg : args.nodeSecurityGroup with _ | sgId
    case pos.none =>
      rw [hsg] at h
      have ht := v2AfterSecurityGroup_error_trace name env args core
        [ResourceEv.createSecurityGroup] (name ++ "-nodeSecurityGroup") e h
      refine ⟨?_, ?_⟩ <;>
        · show _ ∉ (v2AfterSecurityGroup name env args core
            [ResourceEv.createSecurityGroup] (name ++ "-nodeSecurityGroup")).1
          rw [ht]
          cases jsStrTruthy args.nodePublicKey <;> simp
    case pos.some =>
      exact ⟨by simp, by simp⟩
    case neg.none =>
      rw [hsg] at h
      have ht := v2AfterSecurityGroup_error_trace name env args core
        [ResourceEv.createSecurityGroup] (name ++ "-nodeSecurityGroup") e h
      refine ⟨?_, ?_⟩ <;>
        · show _ ∉ (v2AfterSecurityGroup name env args core
            [ResourceEv.createSecurityGroup] (name ++ "-nodeSecurityGroup")).1
          rw [ht]
          cases jsStrTruthy args.nodePublicKey <;> simp
    case neg.some =>
      rw [hsg] at h
      have ht := v2AfterSecurityGroup_error_trace name env args core [] sgId e h
      refine ⟨?_, ?_⟩ <;>
        · show _ ∉ (v2AfterSecurityGroup name env args core [] sgId).1
          rw [ht]
          cases jsStrTruthy args.nodePublicKey <;> simp

/-- C9 witness: the amended ordering applied at the counterexample's options —
the failed call declared no launch configuration and no stack. -/
theorem c9_validation_before_creation_witness :
    ResourceEv.createLaunchConfiguration ∉
      (createNodeGroupInternalModel "ng" {}
        { instanceProfile := some "profile", nodePublicKey := some "ssh-rsa AAAA",
          nodeRootVolumeIops := some 100 } {}).1 ∧
    ResourceEv.createCfnStack ∉
      (createNodeGroupInternalModel "ng" {}
        { instanceProfile := some "profile", nodePublicKey := some "ssh-rsa AAAA",
          nodeRootVolumeIops := some 100 } {}).1 :=
  (c9_validation_before_creation "ng" {}
    { instanceProfile := some "profile", nodePublicKey := some "ssh-rsa AAAA",
      nodeRootVolumeIops := some 100 } {}).1
    "Cannot create a cluster node root volume of non-io1 type with provisioned IOPS (nodeRootVolumeIops)."
    (by decide)

set_option maxRecDepth 8192 in
/-- C10: an empty-string user-data override is treated exactly as an absent
one by both provisioners — the whole provisioning outcome (trace, errors and
results, hence also the mutual-exclusion check and the chosen user data) is
identical; concretely, with the empty override plus labels, the legacy
provisioner succeeds and installs the generated bootstrap script (not the
empty override) as the launch configuration user data, and the
launch-template provisioner installs its base64 encoding. -/
theorem c10_empty_override_like_absent (name : String) (env : Env)
    (args : NodeGroupArgs) (core : CoreData) :
    createNodeGroupInternalModel name env
        { args with nodeUserDataOverride := some "" } core =
      createNodeGroupInternalModel name env
        { args with nodeUserDataOverride := none } core ∧
    createNodeGroupV2InternalModel name env
        { args with nodeUserDataOverride := some "" } core =
      createNodeGroupV2InternalModel name env
        { args with nodeUserDataOverride := none } core ∧
    ((createNodeGroupInternalModel "ng" {}
        { instanceProfile := some "profile", nodeUserDataOverride := some "",
          labels := some [("team", "dev")] } {}).2.map (fun r => r.userData)) =
      .ok (legacyUserDataScript "" "" "" "" "" ""
        (bootstrapExtraArgsString none
          (kubeletArgsTokens none (some [("team", "dev")]) none))) ∧
    ((createNodeGroupV2InternalModel "ng" {}
        { instanceProfile := some "profile", nodeUserDataOverride := some "",
          labels := some [("team", "dev")] } {}).2.map (fun r => r.userDataBase64)) =
      .ok (base64Encode (v2UserDataScript "" "" "" "ng" ""
        (bootstrapExtraArgsString none
          (kubeletArgsTokens none (some [("team", "dev")]) none)))) := by
  refine ⟨rfl, rfl, by decide, by decide⟩

end NodeGroup
